import Mathlib

/-!
Shallow embedding of the `non_id_props` Blender addon library
(`non_id_props.py` and the demo addon `example_usage.py`).

The library lets a Blender `PropertyGroup` hold a reference to a non-ID
sub-object (vertex group, modifier, constraint, ...) by storing the
sub-object's name under the key `"_" ++ name` in the parent's ID-property
store, resolving the name back to the live item on read, and tracking
renames through the `msgbus` notification facility.  Records of every
subscription are kept in each scene's `non_id_props` collection so the
subscriptions can be replayed by the `load_post` handler.

The embedding models the slice of the Blender data model the library
touches:
* a sub-object is a named item with a numeric identity (`SubObject`);
* an ID data block (`DataBlock`) carries its `bl_rna.identifier`, its
  subtype collections (name-keyed lists of sub-objects) and the
  property-group parents reachable from it, keyed by `path_from_id()`;
* `bpy.data` is an association list from collection names (`"objects"`,
  ...) to lists of data blocks;
* a msgbus subscription records its owner (the descriptor instance,
  identified by `uid`), the subscribe key (the `name` RNA of a concrete
  item, identified by the item's `id`) and the notify arguments
  `(self, parent_cls, parent_item)`;
* Python's in-place mutation becomes explicit state passing on `BState`.

Attribute lookup `setattr(parent, name, v)` / `getattr(parent, name)`
dispatches through the class attribute named `name`; the embedding keeps
the registered descriptors in `BState.registry` and dispatches by
descriptor name.  The user-supplied `get`/`set`/`update` callbacks are
arbitrary Python and are not modelled; the descriptor records only their
presence (`hasParentGet`, ...), which is all `_set_prop`'s read-only
check inspects.
-/

/-- A non-ID sub-object (e.g. a vertex group): a mutable name plus a
numeric identity standing for Python object identity. -/
structure SubObject where
  id : Nat
  name : String
deriving DecidableEq, Repr

/-- One record of `scene.non_id_props`: the `MsgbusItem` property group of
`non_id_props.py` (four string properties, defaulting to `""`). -/
structure MsgbusItem where
  type : String
  path : String
  name : String
  non_id_prop_name : String
deriving DecidableEq, Repr

/-- A scene, reduced to the part the library touches: its `non_id_props`
collection. -/
structure Scene where
  non_id_props : List MsgbusItem
deriving DecidableEq, Repr

/-- The ID-property store of a property-group parent: string keys to the
stored name strings (`parent_cls[...]`). -/
abbrev PropStore := List (String × String)

/-- An ID data block: its `bl_rna.identifier`, its subtype collections
(e.g. `"vertex_groups"`), and the property-group parents reachable from
it, keyed by their `path_from_id()`. -/
structure DataBlock where
  identifier : String
  cols : List (String × List SubObject)
  parents : List (String × PropStore)
deriving DecidableEq, Repr

/-- A `_NonIDProperty` descriptor instance.  `uid` stands for Python
object identity (it is the msgbus owner); the three flags record whether
the user supplied `get` / `set` / `update` callbacks. -/
structure NProp where
  uid : Nat
  name : String
  subtype : String
  hasParentGet : Bool
  hasParentSet : Bool
  hasParentUpdate : Bool
deriving DecidableEq, Repr

/-- The stored-name key: `self.prop_name = "_" + name` from `_NonIDProperty.__init__`. -/
def NProp.prop_name (np : NProp) : String := "_" ++ np.name

/-- A reference to a property-group parent: the `bpy.data` collection
holding its ID data block, the block's index there, and the parent's
`path_from_id()`. -/
structure PRef where
  typeCol : String
  blockIdx : Nat
  path : String
deriving DecidableEq, Repr

/-- A msgbus subscription made by `_refresh_msgbus`: owner is the
descriptor (`descr.uid`), the key is the `name` RNA of the item `itemId`,
and the notify arguments are `(descr, parentRef, itemId)`. -/
structure Subscription where
  descr : NProp
  parentRef : PRef
  itemId : Nat
deriving DecidableEq, Repr

/-- The global state: whether `register()` has run (so scenes have the
`non_id_props` attribute), the scenes, `bpy.data`, the live msgbus
subscriptions, and the registered descriptors (class attributes, for
`getattr`/`setattr` dispatch by name). -/
structure BState where
  registered : Bool
  scenes : List Scene
  data : List (String × List DataBlock)
  subs : List Subscription
  registry : List NProp
deriving DecidableEq, Repr

/-- The `types` dict of `non_id_props.py`: ID type identifiers to
`bpy.data` collection names. -/
def types : List (String × String) := [
  ("Brush", "brushes"),
  ("Scene", "scenes"),
  ("GreasePencil", "grease_pencils"),
  ("World", "worlds"),
  ("NodeGroup", "node_groups"),
  ("Object", "objects"),
  ("Mask", "masks"),
  ("Workspace", "workspaces"),
  ("Metaball", "metaballs"),
  ("Action", "actions"),
  ("Armature", "armatures"),
  ("Collection", "collections"),
  ("Speaker", "speakers"),
  ("WindowManager", "window_managers"),
  ("Font", "fonts"),
  ("Lightprobe", "lightprobes"),
  ("ShapeKey", "shape_keys"),
  ("Light", "lights"),
  ("Text", "texts"),
  ("PaintCurve", "paint_curves"),
  ("Linestyle", "linestyles"),
  ("Curve", "curves"),
  ("Mesh", "meshes"),
  ("Lattice", "lattices"),
  ("Library", "libraries"),
  ("CacheFile", "cache_files"),
  ("Screen", "screens"),
  ("Image", "images"),
  ("Particle", "particles"),
  ("Volume", "volumes"),
  ("Sound", "sounds"),
  ("Camera", "cameras"),
  ("Palette", "palettes"),
  ("Material", "materials"),
  ("Texture", "textures"),
  ("Movieclip", "movieclips")]

/-- First-match in-place update of an association list (a Python dict
stores one entry per key; updates replace in place). -/
def updAssoc {α : Type} : List (String × α) → String → (α → α) → List (String × α)
  | [], _, _ => []
  | pr :: rest, k, f =>
    if pr.fst == k then (pr.fst, f pr.snd) :: rest else pr :: updAssoc rest k f

/-- Python dict assignment `st[k] = v`: replace in place, else append. -/
def storeSet : PropStore → String → String → PropStore
  | [], k, v => [(k, v)]
  | pr :: rest, k, v =>
    if pr.fst == k then (k, v) :: rest else pr :: storeSet rest k v

/-- Python `del st[k]` with the `KeyError` swallowed (as `_reset_prop`
does): remove the first entry with the key, if any. -/
def storeDel : PropStore → String → PropStore
  | [], _ => []
  | pr :: rest, k => if pr.fst == k then rest else pr :: storeDel rest k

/-- Resolve a parent reference to its ID data block (`parent_cls.id_data`). -/
def getBlock (s : BState) (p : PRef) : Option DataBlock :=
  (List.lookup p.typeCol s.data).bind (fun bs => bs.get? p.blockIdx)

/-- Resolve a parent reference to the parent's ID-property store
(`data_block.path_resolve(path)` then indexing `parent_cls[...]`). -/
def getStore (s : BState) (p : PRef) : Option PropStore :=
  (getBlock s p).bind (fun b => List.lookup p.path b.parents)

/-- Result of `_NonIDProperty._get_prop`.  `customGet` marks the
user-callback path (outside the embedding); `badRef` is the embedding
artifact of an unresolvable parent reference (a live Python object cannot
dangle); `removedErr` is the `AttributeError` raised when the stored name
no longer matches an item. -/
inductive GetResult
  | customGet
  | badRef
  | attrSubtypeErr
  | noneVal
  | removedErr (prop_name : String)
  | item (v : SubObject)
deriving DecidableEq, Repr

/-- Embedding of `_NonIDProperty._get_prop` (non_id_props.py lines 104-122).  With no
custom getter: fetch `getattr(parent_cls.id_data, self.subtype)`, read
`parent_cls[self.prop_name]` (absent key means the property was never
set: return `None`), and look the stored name up in the collection
(first match), raising `AttributeError` when the item has been removed.
`_get_prop` performs no writes, so it takes the state and returns only a
result. -/
def _get_prop (np : NProp) (s : BState) (p : PRef) : GetResult :=
  if np.hasParentGet then .customGet
  else
    match getBlock s p with
    | none => .badRef
    | some blk =>
      match List.lookup p.path blk.parents with
      | none => .badRef
      | some store =>
        match List.lookup np.subtype blk.cols with
        | none => .attrSubtypeErr
        | some col =>
          match List.lookup np.prop_name store with
          | none => .noneVal
          | some pn =>
            match col.find? (fun it => it.name == pn) with
            | none => .removedErr pn
            | some v => .item v

/-- The exceptions `_NonIDProperty._set_prop` can raise.  `indexNoScene`
is the `IndexError` of `bpy.data.scenes[0]` with no scene;
`notRegistered` the `RuntimeError` for an unregistered module; `readOnly`
the `AttributeError` for a getter-only property; `itemKeyErr` the
`KeyError` of `parent_col[item_name]`; `typesKeyErr` the `KeyError` of
`types[...]` inside `_add_msgbus_item`; `badRef` the embedding artifact
of an unresolvable parent reference. -/
inductive SetErr
  | indexNoScene
  | notRegistered
  | readOnly
  | badRef
  | attrSubtypeErr
  | itemKeyErr (item_name : String)
  | typesKeyErr (identifier : String)
deriving DecidableEq, Repr

/-- Apply a function to every scene's `non_id_props` collection. -/
def mapScenes (s : BState) (f : List MsgbusItem → List MsgbusItem) : BState :=
  { s with scenes := s.scenes.map (fun sc => { sc with non_id_props := f sc.non_id_props }) }

/-- Embedding of `_NonIDProperty._refresh_msgbus` (lines 166-178):
`msgbus.clear_by_owner(self)` drops every subscription owned by this
descriptor, then `subscribe_rna` registers `_on_change` on the `name` RNA
of `parent_item` with args `(self, parent_cls, parent_item)`. -/
def _refresh_msgbus (s : BState) (np : NProp) (p : PRef) (itemId : Nat) : BState :=
  { s with subs := s.subs.filter (fun sub => sub.descr.uid != np.uid) ++ [⟨np, p, itemId⟩] }

/-- The per-scene body of `_NonIDProperty._add_msgbus_item` (lines
186-196) in the normal case: the first record with matching `path` and
`name` has all four fields overwritten (so it becomes `rec`); with no
match a fresh record is appended and then assigned. -/
def addItemLoop (rec : MsgbusItem) : List MsgbusItem → List MsgbusItem
  | [] => [rec]
  | it :: rest =>
    if it.path == rec.path && it.name == rec.name then rec :: rest
    else it :: addItemLoop rec rest

/-- Embedding of `_NonIDProperty._add_msgbus_item` (lines 180-196): for every scene,
find-or-add the record for `(path, name)` and assign its fields, the
first being `item.type = types[identifier]`.  When the identifier is
missing from `types` the `KeyError` is raised while processing the first
scene, after `scene.non_id_props.add()` but before any field assignment:
the first scene keeps a default record (four empty strings) when the
search found no match, and later scenes are untouched. -/
def _add_msgbus_item (s : BState) (identifier path pname itemName : String) :
    BState × Option SetErr :=
  match List.lookup identifier types with
  | some t =>
    (mapScenes s (addItemLoop ⟨t, path, pname, itemName⟩), none)
  | none =>
    match s.scenes with
    | [] => (s, none)
    | sc0 :: rest =>
      let items0 :=
        if sc0.non_id_props.any (fun it => it.path == path && it.name == pname)
        then sc0.non_id_props
        else sc0.non_id_props ++ [⟨"", "", "", ""⟩]
      ({ s with scenes := { sc0 with non_id_props := items0 } :: rest },
       some (.typesKeyErr identifier))

/-- The per-scene loop of `_NonIDProperty._remove_msgbus_item` (lines
198-202): `for i, item in enumerate(col): if item.name == pname:
col.remove(i)`.  Iteration is by index over the live collection, so a
removal at index `i` makes the next step read the element that was
originally at `i + 2` (matching Python's sequence-iterator semantics). -/
def removeLoop (pname : String) (items : List MsgbusItem) (i : Nat) : List MsgbusItem :=
  if h : i < items.length then
    if (items.get ⟨i, h⟩).name == pname
    then removeLoop pname (items.eraseIdx i) (i + 1)
    else removeLoop pname items (i + 1)
  else items
termination_by items.length - i
decreasing_by
  · simp only [List.length_eraseIdx, h, if_pos]
    omega
  · omega

/-- Embedding of `_NonIDProperty._remove_msgbus_item` (lines 198-202): run the removal
loop on every scene's `non_id_props`. -/
def _remove_msgbus_item (s : BState) (np : NProp) : BState :=
  mapScenes s (fun items => removeLoop np.name items 0)

/-- Update the block at `p.blockIdx` by applying `f` to the store of the
parent keyed `p.path` (no-op on an out-of-range index: a live Python
object cannot dangle, so this branch is unreachable from valid refs). -/
def updBlocks (p : PRef) (f : PropStore → PropStore) (bs : List DataBlock) :
    List DataBlock :=
  match bs.get? p.blockIdx with
  | none => bs
  | some b => bs.set p.blockIdx { b with parents := updAssoc b.parents p.path f }

/-- Apply a function to the ID-property store of the parent `p`
(the in-place mutation `parent_cls[...] = ...`). -/
def updParentStore (s : BState) (p : PRef) (f : PropStore → PropStore) : BState :=
  { s with data := updAssoc s.data p.typeCol (updBlocks p f) }

/-- Embedding of `_NonIDProperty._reset_prop` (lines 159-164): delete the stored name
(swallowing the `KeyError`) and remove the msgbus records. -/
def _reset_prop (s : BState) (np : NProp) (p : PRef) : BState :=
  _remove_msgbus_item (updParentStore s p (fun st => storeDel st np.prop_name)) np

/-- Embedding of `_NonIDProperty._set_prop` (lines 124-157).  In order: the
registration check on `bpy.data.scenes[0].non_id_props`; the read-only
check; the `None` branch (`_reset_prop`); otherwise store
`value.name` under `self.prop_name` on the parent, re-read it, look the
name up in `getattr(parent_cls.id_data, self.subtype)` (a `KeyError`
here propagates, leaving the store already written), then
`_refresh_msgbus` and `_add_msgbus_item`.  The user `set`/`update`
callbacks (lines 153-157) run after all of this and are outside the
embedding.  The returned state is the state at normal return or at the
point an exception is raised. -/
def _set_prop (s : BState) (np : NProp) (p : PRef) (value : Option SubObject) :
    BState × Option SetErr :=
  match s.scenes with
  | [] => (s, some .indexNoScene)
  | _ :: _ =>
    if !s.registered then (s, some .notRegistered)
    else if np.hasParentGet && !np.hasParentSet then (s, some .readOnly)
    else
      match value with
      | none => (_reset_prop s np p, none)
      | some v =>
        match getBlock s p with
        | none => (s, some .badRef)
        | some blk =>
          match List.lookup p.path blk.parents with
          | none => (s, some .badRef)
          | some store =>
            let store1 := storeSet store np.prop_name v.name
            let s1 := updParentStore s p (fun st => storeSet st np.prop_name v.name)
            match List.lookup np.subtype blk.cols with
            | none => (s1, some .attrSubtypeErr)
            | some col =>
              match List.lookup np.prop_name store1 with
              | none => (s1, some .badRef)
              | some item_name =>
                match col.find? (fun it => it.name == item_name) with
                | none => (s1, some (.itemKeyErr item_name))
                | some parent_item =>
                  let s2 := _refresh_msgbus s1 np p parent_item.id
                  _add_msgbus_item s2 blk.identifier p.path np.name parent_item.name

/-- The `my_vertex_group` descriptor of the demo's `MyPropertyGroup`
(example_usage.py): `NonIDProperty(name="my_vertex_group",
subtype="vertex_groups", set=my_vertex_group_update)`. -/
def my_vertex_group : NProp :=
  { uid := 0, name := "my_vertex_group", subtype := "vertex_groups",
    hasParentGet := false, hasParentSet := true, hasParentUpdate := false }

/-- The `my_modifier` descriptor of the demo's `MyPropertyGroup`:
`NonIDProperty(name="my_modifier", subtype="modifiers")`. -/
def my_modifier : NProp :=
  { uid := 1, name := "my_modifier", subtype := "modifiers",
    hasParentGet := false, hasParentSet := false, hasParentUpdate := false }

/-- The `my_constraint` descriptor of the demo's `MyPropertyGroup`:
`NonIDProperty(name="my_constraint", subtype="constraints")`. -/
def my_constraint : NProp :=
  { uid := 2, name := "my_constraint", subtype := "constraints",
    hasParentGet := false, hasParentSet := false, hasParentUpdate := false }

/-- The demo's `MyPropertyGroup`: its three `NonIDProperty` members, in
declaration order. -/
def MyPropertyGroup : List NProp := [my_vertex_group, my_modifier, my_constraint]

/-- The demo's `classes` list (`classes = [MyPropertyGroup]`): the
property groups `example_usage.register` registers. -/
def demoClasses : List (List NProp) := [MyPropertyGroup]

theorem lookup_updAssoc_self {α : Type} (l : List (String × α)) (k : String)
    (f : α → α) : List.lookup k (updAssoc l k f) = (List.lookup k l).map f := by
  induction l with
  | nil => simp [updAssoc, List.lookup]
  | cons pr rest ih =>
    by_cases h : pr.fst = k
    · simp [updAssoc, List.lookup, h]
    · have hb : (pr.fst == k) = false := by simp [h]
      have hb2 : (k == pr.fst) = false := by
        simp only [beq_eq_false_iff_ne]
        exact fun hk => h hk.symm
      simp [updAssoc, List.lookup, hb, hb2, ih]

theorem lookup_updAssoc_ne {α : Type} (l : List (String × α)) (k k' : String)
    (f : α → α) (h : k' ≠ k) :
    List.lookup k' (updAssoc l k f) = List.lookup k' l := by
  induction l with
  | nil => simp [updAssoc]
  | cons pr rest ih =>
    by_cases hk : pr.fst = k
    · have h1 : (k' == pr.fst) = false := by
        simp only [beq_eq_false_iff_ne]
        exact fun he => h (he.trans hk)
      have h2 : (k' == k) = false := by simp [h]
      simp [updAssoc, List.lookup, hk, h1, h2]
    · have hb : (pr.fst == k) = false := by simp [hk]
      simp only [updAssoc, hb, if_false, List.lookup, ih]

theorem lookup_storeSet_self (st : PropStore) (k v : String) :
    List.lookup k (storeSet st k v) = some v := by
  induction st with
  | nil => simp [storeSet, List.lookup]
  | cons pr rest ih =>
    by_cases h : pr.fst = k
    · simp [storeSet, List.lookup, h]
    · have hb : (pr.fst == k) = false := by simp [h]
      have hb2 : (k == pr.fst) = false := by
        simp only [beq_eq_false_iff_ne]
        exact fun hk => h hk.symm
      simp [storeSet, List.lookup, hb, hb2, ih]

theorem lookup_storeSet_ne (st : PropStore) (k k' v : String) (h : k' ≠ k) :
    List.lookup k' (storeSet st k v) = List.lookup k' st := by
  induction st with
  | nil =>
    have : (k' == k) = false := by simp [h]
    simp [storeSet, List.lookup, this]
  | cons pr rest ih =>
    by_cases hk : pr.fst = k
    · have : (k' == k) = false := by simp [h]
      simp [storeSet, List.lookup, hk, this]
    · have hb : (pr.fst == k) = false := by simp [hk]
      simp only [storeSet, hb, if_false, List.lookup, ih]

theorem get?_set_self_of_lt {α : Type} (l : List α) (i : Nat) (a : α)
    (h : i < l.length) : (l.set i a).get? i = some a := by
  induction l generalizing i with
  | nil => simp at h
  | cons x xs ih =>
    cases i with
    | zero => rfl
    | succ n =>
      simp only [List.set, List.get?]
      exact ih n (by simpa using h)

theorem getBlock_updParentStore (s : BState) (p : PRef) (blk : DataBlock)
    (f : PropStore → PropStore) (hblk : getBlock s p = some blk) :
    getBlock (updParentStore s p f) p =
      some { blk with parents := updAssoc blk.parents p.path f } := by
  unfold getBlock at hblk ⊢
  cases hbs : List.lookup p.typeCol s.data with
  | none => rw [hbs] at hblk; simp at hblk
  | some bs =>
    rw [hbs] at hblk
    simp only [Option.some_bind] at hblk
    have hlt : p.blockIdx < bs.length := by
      cases hlt : bs.get? p.blockIdx with
      | none =>
        rw [hlt] at hblk; simp at hblk
      | some b => exact List.get?_eq_some.mp hlt |>.1
    simp only [updParentStore, updBlocks, lookup_updAssoc_self, hbs, Option.map_some',
      Option.some_bind, hblk]
    exact get?_set_self_of_lt bs p.blockIdx _ hlt

theorem find_name_of_nodup (col : List SubObject) (v : SubObject)
    (hmem : v ∈ col) (hnd : (col.map SubObject.name).Nodup) :
    col.find? (fun it => it.name == v.name) = some v := by
  induction col with
  | nil => simp at hmem
  | cons h t ih =>
    rcases List.mem_cons.mp hmem with rfl | hmemt
    · simp [List.find?]
    · have hnames : h.name ∉ t.map SubObject.name := (List.nodup_cons.mp hnd).1
      have hne : (h.name == v.name) = false := by
        simp only [beq_eq_false_iff_ne]
        intro he
        exact hnames (he ▸ List.mem_map_of_mem SubObject.name hmemt)
      simp only [List.find?, hne]
      exact ih hmemt (List.nodup_cons.mp hnd).2

theorem self_mem_addItemLoop (rec0 : MsgbusItem) (items : List MsgbusItem) :
    rec0 ∈ addItemLoop rec0 items := by
  induction items with
  | nil => simp [addItemLoop]
  | cons it rest ih =>
    cases hcond : (it.path == rec0.path && it.name == rec0.name) with
    | true => simp [addItemLoop, hcond]
    | false =>
      simp only [addItemLoop, hcond, Bool.false_eq_true, if_false, List.mem_cons]
      exact Or.inr ih

theorem set_prop_ok (s : BState) (np : NProp) (p : PRef) (v w : SubObject)
    (blk : DataBlock) (store : PropStore) (col : List SubObject) (tname : String)
    (hsc : s.scenes ≠ [])
    (hreg : s.registered = true)
    (hget : np.hasParentGet = false)
    (hblk : getBlock s p = some blk)
    (hst : List.lookup p.path blk.parents = some store)
    (hcol : List.lookup np.subtype blk.cols = some col)
    (hfind : col.find? (fun it => it.name == v.name) = some w)
    (hty : List.lookup blk.identifier types = some tname) :
    _set_prop s np p (some v) =
      (mapScenes
        (_refresh_msgbus (updParentStore s p (fun st => storeSet st np.prop_name v.name))
          np p w.id)
        (addItemLoop ⟨tname, p.path, np.name, w.name⟩), none) := by
  cases hscs : s.scenes with
  | nil => exact absurd hscs hsc
  | cons sc rest =>
    simp only [_set_prop, hscs, hreg, hget, Bool.false_and, Bool.not_true,
      Bool.false_eq_true, if_false, hblk, hst, hcol, lookup_storeSet_self, hfind,
      _add_msgbus_item, hty]

/-- C1: for a registered `NonIDProperty` with no custom getter or setter,
setting the property to a sub-object `v` present in the parent ID data
block's subtype collection and then getting it returns the collection
item whose name equals `v.name`; with the collection's names distinct (as
Blender enforces) that item is `v` itself. -/
theorem C1_set_get_roundtrip (s : BState) (np : NProp) (p : PRef) (v : SubObject)
    (blk : DataBlock) (store : PropStore) (col : List SubObject) (tname : String)
    (hsc : s.scenes ≠ [])
    (hreg : s.registered = true)
    (hget : np.hasParentGet = false)
    ( _hset : np.hasParentSet = false)
    (hblk : getBlock s p = some blk)
    (hst : List.lookup p.path blk.parents = some store)
    (hcol : List.lookup np.subtype blk.cols = some col)
    (hmem : v ∈ col)
    (hnd : (col.map SubObject.name).Nodup)
    (hty : List.lookup blk.identifier types = some tname) :
    (_set_prop s np p (some v)).2 = none ∧
      _get_prop np (_set_prop s np p (some v)).1 p = .item v := by
  have hfind := find_name_of_nodup col v hmem hnd
  rw [set_prop_ok s np p v v blk store col tname hsc hreg hget hblk hst hcol hfind hty]
  refine ⟨rfl, ?_⟩
  have hblk2 : getBlock (updParentStore s p (fun st => storeSet st np.prop_name v.name)) p
      = some { blk with parents := updAssoc blk.parents p.path (fun st => storeSet st np.prop_name v.name) } :=
    getBlock_updParentStore s p blk _ hblk
  simp only [_get_prop, hget, Bool.false_eq_true, if_false]
  have hblk3 : getBlock (mapScenes
      (_refresh_msgbus (updParentStore s p (fun st => storeSet st np.prop_name v.name)) np p v.id)
      (addItemLoop ⟨tname, p.path, np.name, v.name⟩)) p
      = some { blk with parents := updAssoc blk.parents p.path (fun st => storeSet st np.prop_name v.name) } := hblk2
  rw [hblk3]
  simp only [lookup_updAssoc_self, hst, Option.map_some', hcol, lookup_storeSet_self, hfind]

/-- C3: a successful set of a `NonIDProperty` to a non-`None` value
leaves the msgbus subscription list equal to the previous list with
every subscription of this descriptor (by owner) removed, followed by
one new subscription to the rename (`name` RNA) notification of the
newly referenced item. -/
theorem C3_msgbus_resubscription (s : BState) (np : NProp) (p : PRef) (v w : SubObject)
    (blk : DataBlock) (store : PropStore) (col : List SubObject) (tname : String)
    (hsc : s.scenes ≠ [])
    (hreg : s.registered = true)
    (hget : np.hasParentGet = false)
    (hblk : getBlock s p = some blk)
    (hst : List.lookup p.path blk.parents = some store)
    (hcol : List.lookup np.subtype blk.cols = some col)
    (hfind : col.find? (fun it => it.name == v.name) = some w)
    (hty : List.lookup blk.identifier types = some tname) :
    (_set_prop s np p (some v)).2 = none ∧
      (_set_prop s np p (some v)).1.subs =
        s.subs.filter (fun sub => sub.descr.uid != np.uid) ++ [⟨np, p, w.id⟩] := by
  rw [set_prop_ok s np p v w blk store col tname hsc hreg hget hblk hst hcol hfind hty]
  exact ⟨rfl, rfl⟩

/-- C4 (amended): a set of a `NonIDProperty` to a non-`None` value that
completes without raising — in particular the parent's ID data-block
type has an entry in the `types` dict, the condition whose failure
breaks the original claim — leaves, in the
`non_id_props` collection of every scene, a record whose fields are the
parent's ID data-block type (via the `types` mapping), the path from
the ID to the parent, the property name, and the referenced sub-object's
current name. -/
theorem C4_record_in_every_scene (s : BState) (np : NProp) (p : PRef) (v w : SubObject)
    (blk : DataBlock) (store : PropStore) (col : List SubObject) (tname : String)
    (hsc : s.scenes ≠ [])
    (hreg : s.registered = true)
    (hget : np.hasParentGet = false)
    (hblk : getBlock s p = some blk)
    (hst : List.lookup p.path blk.parents = some store)
    (hcol : List.lookup np.subtype blk.cols = some col)
    (hfind : col.find? (fun it => it.name == v.name) = some w)
    (hty : List.lookup blk.identifier types = some tname) :
    (_set_prop s np p (some v)).2 = none ∧
      ∀ sc ∈ (_set_prop s np p (some v)).1.scenes,
        (⟨tname, p.path, np.name, w.name⟩ : MsgbusItem) ∈ sc.non_id_props := by
  rw [set_prop_ok s np p v w blk store col tname hsc hreg hget hblk hst hcol hfind hty]
  refine ⟨rfl, ?_⟩
  intro sc hmem
  simp only [mapScenes, List.mem_map] at hmem
  obtain ⟨sc0, _, rfl⟩ := hmem
  exact self_mem_addItemLoop _ _

/-- C6: a successful set of a `NonIDProperty` to a non-`None` sub-object
writes exactly one entry of the parent's ID-property store: the key
`"_" ++ name` now holds the string `v.name` (a name, never the object),
and every other key reads as before. -/
theorem C6_stores_only_name (s : BState) (np : NProp) (p : PRef) (v w : SubObject)
    (blk : DataBlock) (store : PropStore) (col : List SubObject) (tname : String)
    (hsc : s.scenes ≠ [])
    (hreg : s.registered = true)
    (hget : np.hasParentGet = false)
    (hblk : getBlock s p = some blk)
    (hst : List.lookup p.path blk.parents = some store)
    (hcol : List.lookup np.subtype blk.cols = some col)
    (hfind : col.find? (fun it => it.name == v.name) = some w)
    (hty : List.lookup blk.identifier types = some tname) :
    (_set_prop s np p (some v)).2 = none ∧
      getStore (_set_prop s np p (some v)).1 p =
        some (storeSet store np.prop_name v.name) ∧
      List.lookup np.prop_name (storeSet store np.prop_name v.name) = some v.name ∧
      ∀ k, k ≠ np.prop_name →
        List.lookup k (storeSet store np.prop_name v.name) = List.lookup k store := by
  rw [set_prop_ok s np p v w blk store col tname hsc hreg hget hblk hst hcol hfind hty]
  refine ⟨rfl, ?_, lookup_storeSet_self store np.prop_name v.name,
    fun k hk => lookup_storeSet_ne store np.prop_name k v.name hk⟩
  have hblk2 : getBlock (updParentStore s p (fun st => storeSet st np.prop_name v.name)) p
      = some { blk with parents := updAssoc blk.parents p.path (fun st => storeSet st np.prop_name v.name) } :=
    getBlock_updParentStore s p blk _ hblk
  show getStore (updParentStore s p (fun st => storeSet st np.prop_name v.name)) p = _
  simp only [getStore, hblk2, Option.some_bind, lookup_updAssoc_self, hst, Option.map_some']

/-- C8: getting a `NonIDProperty` with no custom getter on a parent whose
store lacks the `"_" ++ name` key returns `None` rather than raising. -/
theorem C8_unset_get_returns_none (s : BState) (np : NProp) (p : PRef)
    (blk : DataBlock) (store : PropStore) (col : List SubObject)
    (hget : np.hasParentGet = false)
    (hblk : getBlock s p = some blk)
    (hst : List.lookup p.path blk.parents = some store)
    (hcol : List.lookup np.subtype blk.cols = some col)
    (hkey : List.lookup np.prop_name store = none) :
    _get_prop np s p = .noneVal := by
  simp only [_get_prop, hget, Bool.false_eq_true, if_false, hblk, hst, hcol, hkey]

/-- C9: getting a `NonIDProperty` whose stored name matches no item of
the subtype collection raises `AttributeError` carrying the stored name;
`_get_prop` performs no writes, so the stored name on the parent is
untouched by the failed get (the embedding returns a result and no new
state). -/
theorem C9_removed_get_raises (s : BState) (np : NProp) (p : PRef)
    (blk : DataBlock) (store : PropStore) (col : List SubObject) (pn : String)
    (hget : np.hasParentGet = false)
    (hblk : getBlock s p = some blk)
    (hst : List.lookup p.path blk.parents = some store)
    (hcol : List.lookup np.subtype blk.cols = some col)
    (hkey : List.lookup np.prop_name store = some pn)
    (hgone : ∀ it ∈ col, it.name ≠ pn) :
    _get_prop np s p = .removedErr pn := by
  have hfind : col.find? (fun it => it.name == pn) = none := by
    rw [List.find?_eq_none]
    intro it hmem
    simp [hgone it hmem]
  simp only [_get_prop, hget, Bool.false_eq_true, if_false, hblk, hst, hcol, hkey, hfind]

/-- A concrete object data block for witnesses: one modifier named
`"Mod"` and one property-group parent at path `"non_id_prop_demo"` with
an empty ID-property store. -/
def demoBlock : DataBlock :=
  { identifier := "Object", cols := [("modifiers", [⟨7, "Mod"⟩])],
    parents := [("non_id_prop_demo", [])] }

/-- A concrete registered state for witnesses: one scene with no records,
one object block, no subscriptions, the demo `my_modifier` descriptor
registered. -/
def demoState : BState :=
  { registered := true, scenes := [⟨[]⟩],
    data := [("objects", [demoBlock])], subs := [], registry := [my_modifier] }

/-- The parent reference used by the witnesses. -/
def demoRef : PRef := ⟨"objects", 0, "non_id_prop_demo"⟩

/-- The sub-object used by the witnesses. -/
def demoItem : SubObject := ⟨7, "Mod"⟩

theorem C1_set_get_roundtrip_witness :
    (_set_prop demoState my_modifier demoRef (some demoItem)).2 = none ∧
      _get_prop my_modifier (_set_prop demoState my_modifier demoRef (some demoItem)).1
        demoRef = .item demoItem :=
  C1_set_get_roundtrip demoState my_modifier demoRef demoItem demoBlock [] [demoItem]
    "objects" (by decide) rfl rfl rfl rfl rfl rfl (by decide) (by decide) rfl

theorem C3_msgbus_resubscription_witness :
    (_set_prop demoState my_modifier demoRef (some demoItem)).2 = none ∧
      (_set_prop demoState my_modifier demoRef (some demoItem)).1.subs =
        demoState.subs.filter (fun sub => sub.descr.uid != my_modifier.uid) ++
          [⟨my_modifier, demoRef, demoItem.id⟩] :=
  C3_msgbus_resubscription demoState my_modifier demoRef demoItem demoItem demoBlock []
    [demoItem] "objects" (by decide) rfl rfl rfl rfl rfl rfl rfl

theorem C4_record_in_every_scene_witness :
    (_set_prop demoState my_modifier demoRef (some demoItem)).2 = none ∧
      ∀ sc ∈ (_set_prop demoState my_modifier demoRef (some demoItem)).1.scenes,
        (⟨"objects", demoRef.path, my_modifier.name, demoItem.name⟩ : MsgbusItem) ∈
          sc.non_id_props :=
  C4_record_in_every_scene demoState my_modifier demoRef demoItem demoItem demoBlock []
    [demoItem] "objects" (by decide) rfl rfl rfl rfl rfl rfl rfl

theorem C6_stores_only_name_witness :
    (_set_prop demoState my_modifier demoRef (some demoItem)).2 = none ∧
      getStore (_set_prop demoState my_modifier demoRef (some demoItem)).1 demoRef =
        some (storeSet [] my_modifier.prop_name demoItem.name) ∧
      List.lookup my_modifier.prop_name
        (storeSet [] my_modifier.prop_name demoItem.name) = some demoItem.name ∧
      ∀ k, k ≠ my_modifier.prop_name →
        List.lookup k (storeSet [] my_modifier.prop_name demoItem.name) =
          List.lookup k ([] : PropStore) :=
  C6_stores_only_name demoState my_modifier demoRef demoItem demoItem demoBlock []
    [demoItem] "objects" (by decide) rfl rfl rfl rfl rfl rfl rfl

theorem C8_unset_get_returns_none_witness :
    _get_prop my_modifier demoState demoRef = .noneVal :=
  C8_unset_get_returns_none demoState my_modifier demoRef demoBlock [] [demoItem]
    rfl rfl rfl rfl rfl

/-- A block whose parent still stores the name `"Mod"` while the
modifiers collection no longer has such an item. -/
def goneBlock : DataBlock :=
  { identifier := "Object", cols := [("modifiers", [])],
    parents := [("non_id_prop_demo", [("_my_modifier", "Mod")])] }

/-- The witness state for the removed-item claim. -/
def goneState : BState :=
  { registered := true, scenes := [⟨[]⟩],
    data := [("objects", [goneBlock])], subs := [], registry := [my_modifier] }

theorem C9_removed_get_raises_witness :
    _get_prop my_modifier goneState demoRef = .removedErr "Mod" :=
  C9_removed_get_raises goneState my_modifier demoRef goneBlock
    [("_my_modifier", "Mod")] [] "Mod" rfl rfl rfl rfl rfl (by decide)

/-- C7: the demo addon registers exactly one property group
(`classes = [MyPropertyGroup]`), and that group exercises the shim on
exactly three sub-object kinds of `bpy.types.Object`: vertex groups,
modifiers and constraints, in that order. -/
theorem C7_demo_three_subtypes :
    demoClasses.length = 1 ∧ demoClasses = [MyPropertyGroup] ∧
      MyPropertyGroup.map NProp.subtype =
        ["vertex_groups", "modifiers", "constraints"] :=
  ⟨rfl, rfl, rfl⟩

/-- At most one record per `(path, name)` pair: the records of one scene
are pairwise distinct on that key. -/
abbrev DedupScene (items : List MsgbusItem) : Prop :=
  items.Pairwise (fun a b => ¬(a.path = b.path ∧ a.name = b.name))

/-- The dedup invariant on the whole state: every scene satisfies
`DedupScene`. -/
abbrev DedupState (s : BState) : Prop :=
  ∀ sc ∈ s.scenes, DedupScene sc.non_id_props

/-- A sequence of calls into `_set_prop` (descriptor, parent, value),
keeping the partial state even when a call raises (the caller catches
the exception and continues). -/
def runSets (ops : List (NProp × PRef × Option SubObject)) (s : BState) : BState :=
  ops.foldl (fun st op => (_set_prop st op.1 op.2.1 op.2.2).1) s

/-- A sequence of calls into `_set_prop` in which every call completes
without raising; `none` when some call raises. -/
def runSetsOk : List (NProp × PRef × Option SubObject) → BState → Option BState
  | [], s => some s
  | op :: rest, s =>
    match _set_prop s op.1 op.2.1 op.2.2 with
    | (s1, none) => runSetsOk rest s1
    | (_, some _) => none

theorem mem_addItemLoop (rec0 b : MsgbusItem) (items : List MsgbusItem)
    (h : b ∈ addItemLoop rec0 items) : b = rec0 ∨ b ∈ items := by
  induction items with
  | nil => simpa [addItemLoop] using h
  | cons it rest ih =>
    cases hcond : (it.path == rec0.path && it.name == rec0.name) with
    | true =>
      simp only [addItemLoop, hcond, if_true, List.mem_cons] at h
      rcases h with rfl | hb
      · exact Or.inl rfl
      · exact Or.inr (List.mem_cons_of_mem it hb)
    | false =>
      simp only [addItemLoop, hcond, Bool.false_eq_true, if_false, List.mem_cons] at h
      rcases h with rfl | hb
      · exact Or.inr (List.mem_cons_self b rest)
      · rcases ih hb with hrec | hr
        · exact Or.inl hrec
        · exact Or.inr (List.mem_cons_of_mem it hr)

theorem addItemLoop_dedup (rec0 : MsgbusItem) (items : List MsgbusItem)
    (h : DedupScene items) : DedupScene (addItemLoop rec0 items) := by
  induction items with
  | nil => simp [addItemLoop, DedupScene]
  | cons it rest ih =>
    obtain ⟨hhead, htail⟩ := List.pairwise_cons.mp h
    cases hcond : (it.path == rec0.path && it.name == rec0.name) with
    | true =>
      obtain ⟨hpa, hna⟩ := Bool.and_eq_true _ _ |>.mp hcond
      have hpa2 : it.path = rec0.path := beq_iff_eq.mp hpa
      have hna2 : it.name = rec0.name := beq_iff_eq.mp hna
      simp only [DedupScene, addItemLoop, hcond, if_true, List.pairwise_cons]
      refine ⟨fun b hb => ?_, htail⟩
      have hthis := hhead b hb
      rw [hpa2, hna2] at hthis
      exact hthis
    | false =>
      simp only [DedupScene, addItemLoop, hcond, Bool.false_eq_true, if_false,
        List.pairwise_cons]
      refine ⟨fun b hb => ?_, ih htail⟩
      rcases mem_addItemLoop rec0 b rest hb with rfl | hbr
      · intro hcontra
        rw [hcontra.1, hcontra.2] at hcond
        simp at hcond
      · exact hhead b hbr

theorem removeLoop_sublist (pname : String) (items : List MsgbusItem) (i : Nat) :
    List.Sublist (removeLoop pname items i) items := by
  induction items, i using removeLoop.induct pname with
  | case1 items i h1 h2 ih =>
    rw [removeLoop]
    simp only [h1, h2, dif_pos, if_true]
    exact ih.trans (List.eraseIdx_sublist items i)
  | case2 items i h1 h2 ih =>
    rw [removeLoop]
    simp only [h1, dif_pos, h2, if_false]
    exact ih
  | case3 items i h1 =>
    rw [removeLoop]
    simp only [h1, dif_neg]
    exact List.Sublist.refl items

theorem mapScenes_dedup (s : BState) (f : List MsgbusItem → List MsgbusItem)
    (hf : ∀ items, DedupScene items → DedupScene (f items))
    (hd : DedupState s) : DedupState (mapScenes s f) := by
  intro sc hmem
  simp only [mapScenes, List.mem_map] at hmem
  obtain ⟨sc0, hsc0, rfl⟩ := hmem
  exact hf sc0.non_id_props (hd sc0 hsc0)

theorem set_prop_dedup (s s1 : BState) (np : NProp) (p : PRef)
    (value : Option SubObject) (hrun : _set_prop s np p value = (s1, none))
    (hd : DedupState s) : DedupState s1 := by
  unfold _set_prop at hrun
  split at hrun
  · exact absurd (congrArg Prod.snd hrun) (by simp)
  · split at hrun
    · exact absurd (congrArg Prod.snd hrun) (by simp)
    · split at hrun
      · exact absurd (congrArg Prod.snd hrun) (by simp)
      · split at hrun
        · -- value = none: _reset_prop
          have hs1 : s1 = _reset_prop s np p := (Prod.mk.injEq _ _ _ _ ▸ hrun).1.symm
          subst hs1
          refine mapScenes_dedup _ _ (fun items hitems => ?_) ?_
          · exact hitems.sublist (removeLoop_sublist np.name items 0)
          · intro sc hmem
            exact hd sc hmem
        · -- value = some v
          split at hrun
          · exact absurd (congrArg Prod.snd hrun) (by simp)
          · split at hrun
            · exact absurd (congrArg Prod.snd hrun) (by simp)
            · split at hrun
              · exact absurd (congrArg Prod.snd hrun) (by simp)
              · simp only [lookup_storeSet_self] at hrun
                split at hrun
                · exact absurd (congrArg Prod.snd hrun) (by simp)
                · -- the _add_msgbus_item tail
                  unfold _add_msgbus_item at hrun
                  split at hrun
                  · have hs1 : s1 = mapScenes _ _ :=
                      (Prod.mk.injEq _ _ _ _ ▸ hrun).1.symm
                    subst hs1
                    refine mapScenes_dedup _ _
                      (fun items hitems => addItemLoop_dedup _ items hitems) ?_
                    intro sc hmem
                    exact hd sc hmem
                  · split at hrun
                    · -- no scene at all: the add loop never ran
                      rename_i hscempty
                      have hs1 := (Prod.mk.injEq _ _ _ _ ▸ hrun).1.symm
                      subst hs1
                      intro sc hmem
                      rw [hscempty] at hmem
                      exact absurd hmem (List.not_mem_nil sc)
                    · exact absurd (congrArg Prod.snd hrun) (by simp)

theorem addItemLoop_len_of_mem (rec0 : MsgbusItem) (items : List MsgbusItem)
    (h : ∃ r ∈ items, r.path = rec0.path ∧ r.name = rec0.name) :
    (addItemLoop rec0 items).length = items.length := by
  induction items with
  | nil =>
    obtain ⟨r, hr, _⟩ := h
    exact absurd hr (List.not_mem_nil r)
  | cons it rest ih =>
    cases hcond : (it.path == rec0.path && it.name == rec0.name) with
    | true => simp [addItemLoop, hcond]
    | false =>
      obtain ⟨r, hr, hkey⟩ := h
      rcases List.mem_cons.mp hr with rfl | hrrest
      · rw [hkey.1, hkey.2] at hcond
        simp at hcond
      · simp only [addItemLoop, hcond, Bool.false_eq_true, if_false, List.length_cons]
        rw [ih ⟨r, hrrest, hkey⟩]

theorem runSetsOk_dedup : ∀ (ops : List (NProp × PRef × Option SubObject))
    (s s1 : BState), DedupState s → runSetsOk ops s = some s1 → DedupState s1 := by
  intro ops
  induction ops with
  | nil =>
    intro s s1 hd hrun
    simp only [runSetsOk, Option.some.injEq] at hrun
    rwa [hrun] at hd
  | cons op rest ih =>
    intro s s1 hd hrun
    unfold runSetsOk at hrun
    split at hrun
    · rename_i s2 heq
      exact ih s2 s1 (set_prop_dedup s s2 op.1 op.2.1 op.2.2 heq hd) hrun
    · exact absurd hrun (by simp)

/-- A data block whose `bl_rna.identifier` has no entry in the `types`
dict (`PointCloud` is such an ID type). -/
def dupBlock : DataBlock :=
  { identifier := "PointCloud", cols := [("modifiers", [⟨7, "Mod"⟩])],
    parents := [("demo", [])] }

/-- A registered state holding the `PointCloud` block. -/
def dupState : BState :=
  { registered := true, scenes := [⟨[]⟩],
    data := [("pointclouds", [dupBlock])], subs := [], registry := [my_modifier] }

/-- A set of `my_modifier` on the parent inside the `PointCloud` block. -/
def dupOp : NProp × PRef × Option SubObject :=
  (my_modifier, ⟨"pointclouds", 0, "demo"⟩, some ⟨7, "Mod"⟩)

/-- C10 fails as stated: running the same set operation twice on a
parent whose ID type is missing from the `types` dict leaves two
identical default records (all fields `""`) in the scene — the
`KeyError` of `types[...]` is raised after `scene.non_id_props.add()`
but before the record's fields are assigned, so the second set does not
find the first default record under its own `(path, name)` key and
appends another. -/
theorem C10_counterexample :
    DedupState dupState ∧ ¬ DedupState (runSets [dupOp, dupOp] dupState) := by
  decide

/-- C10 (amended): after any sequence of set operations that all
complete without raising, each scene's `non_id_props` collection
contains at most one record per `(path, name)` pair; moreover a set
whose `(path, name)` key is already recorded updates the existing
record in place (the per-scene record count is unchanged). -/
theorem C10_dedup_invariant (s s1 : BState)
    (ops : List (NProp × PRef × Option SubObject))
    (hd : DedupState s) (hrun : runSetsOk ops s = some s1) :
    DedupState s1 ∧
      ∀ (rec0 : MsgbusItem) (items : List MsgbusItem),
        (∃ r ∈ items, r.path = rec0.path ∧ r.name = rec0.name) →
        (addItemLoop rec0 items).length = items.length :=
  ⟨runSetsOk_dedup ops s s1 hd hrun,
   fun rec0 items h => addItemLoop_len_of_mem rec0 items h⟩

theorem C10_dedup_invariant_witness :
    DedupState (_set_prop demoState my_modifier demoRef (some demoItem)).1 ∧
      ∀ (rec0 : MsgbusItem) (items : List MsgbusItem),
        (∃ r ∈ items, r.path = rec0.path ∧ r.name = rec0.name) →
        (addItemLoop rec0 items).length = items.length :=
  C10_dedup_invariant demoState (_set_prop demoState my_modifier demoRef (some demoItem)).1
    [(my_modifier, demoRef, some demoItem)] (by decide) rfl

/-- C4 fails as stated: a set on a parent whose ID type (`PointCloud`)
is missing from the `types` dict references the item and makes the
subscription, but the `KeyError` of `types[...]` fires after
`scene.non_id_props.add()` and before the record's fields are assigned,
so the first scene keeps only a default record (all fields `""`) and no
scene stores a record with the set's path and property name. -/
theorem C4_counterexample :
    (_set_prop dupState my_modifier ⟨"pointclouds", 0, "demo"⟩ (some ⟨7, "Mod"⟩)).1.subs =
      [⟨my_modifier, ⟨"pointclouds", 0, "demo"⟩, 7⟩] ∧
    ∃ sc ∈ (_set_prop dupState my_modifier ⟨"pointclouds", 0, "demo"⟩
        (some ⟨7, "Mod"⟩)).1.scenes,
      ∀ r ∈ sc.non_id_props, ¬(r.path = "demo" ∧ r.name = "my_modifier") := by
  decide

